import Mathlib

/-!
Verification development for spaceKLIP/psf.py (class JWST_PSF).

The module synthesizes coronagraphic PSFs by blending an off-axis and an
on-axis reference PSF according to the occulting-mask transmission, with
sub-pixel recentering, optional positional shift, sky rotation and
resampling to detector pixels.

Modelling conventions:
* Oversampled square images are functions `Fin n → Fin n → ℚ`; pixel values
  are rationals (the Python code uses floats; all claims here are about
  exact algebraic structure, not rounding).
* External collaborators (webbpsf_ext `_transmission_map`, `fourier_imshift`,
  `frebin`, `rtheta_to_xy`, `pad_or_cut_to_size`, pysiaf `convert`, scipy
  `rotate`, astropy Gaussian fitting) are modelled as explicit function
  parameters bundled in structures (`ExtOps`, `ImOps`, `InitExt`); the
  definitions below only translate the code of psf.py itself.
* `_transmission_map` evaluates every query position independently, so it is
  modelled as a per-position function applied pointwise to the batch.
* numpy's `squeeze()` only drops singleton axes and never changes stored
  values; stacks stay indexed by `Fin N` here, so `squeeze` is the identity
  in this model and is not represented.
-/

/-- Square oversampled image of side `n`, pixel values as rationals. -/
abbrev Image (n : ℕ) := Fin n → Fin n → ℚ

/-- pysiaf coordinate frames used by psf.py ('idl', 'tel', 'sci', 'det'). -/
inductive Frame where
  | idl
  | tel
  | sci
  | det
deriving DecidableEq

/-- Result of `gen_psf_idl` / `gen_psf`: a stack of `N` frames, either still
oversampled (side `n`) or resampled to detector pixels (side `d`). -/
inductive PsfOut (n d N : ℕ) where
  | over (s : Fin N → Image n)
  | det (s : Fin N → Image d)
deriving DecidableEq

/-- Engine state after `JWST_PSF.__init__` finishes: the reference PSFs, the
precomputed centering offset `_xy_off_to_cen`, and the configuration read by
the query methods.  In Python `self.psf_on` is one attribute whose shape is
`(9,ny,nx)` for bar ('B') masks and `(ny,nx)` otherwise; here the two shapes
are the two fields `psf_on_bar` / `psf_on_sngl`, selected by the same
`image_mask[-1] == 'B'` test the source performs. -/
structure Engine (n : ℕ) where
  image_mask : String
  pupil_mask : Option String
  fov_pix : ℕ
  oversample : ℕ
  psf_bar_xvals : Fin 9 → ℚ
  psf_on_bar : Fin 9 → Image n
  psf_on_sngl : Image n
  psf_off : Image n
  xy_off_to_cen : ℚ × ℚ
  V3IdlYAngle : ℚ
  XSciScale : ℚ
  YSciScale : ℚ

/-- External collaborators used by the query methods (webbpsf_ext, pysiaf,
scipy).  `tmap` is `_transmission_map` restricted to one position: it returns
the amplitude transmission and the auxiliary idl-frame coordinates
`(t, cx_idl, cy_idl)`.  `rotate` is scipy.ndimage.rotate on one frame, taking
the angle, the `reshape` flag and the constant fill value `cval`.
`calc_psf` is the slow-path `self._func_on` PSF computation. -/
structure ExtOps (n d : ℕ) where
  tmap : Frame → ℚ × ℚ → ℚ × ℚ × ℚ
  convert : ℚ × ℚ → Frame → Frame → ℚ × ℚ
  rtheta_to_xy : ℚ → ℚ → ℚ × ℚ
  fourier_imshift : Image n → ℚ → ℚ → Image n
  frebin : Image n → Image d
  rotate : ℚ → Bool → ℚ → Image n → Image n
  calc_psf : {N : ℕ} → (Fin N → ℚ × ℚ) → Frame → Fin N → Image n

/-- Python `s[-1]` on a string, as a partial operation (raises on ""). -/
def strLast (s : String) : Option Char := s.toList.getLast?

/-- Python `s.upper()` (ASCII instrument names only). -/
def strUpper (s : String) : String := String.mk (s.toList.map Char.toUpper)

/-- Helper for `strContains`: does `p` start the list `l`? -/
def charListStartsWith : List Char → List Char → Bool
  | [], _ => true
  | _ :: _, [] => false
  | a :: as, b :: bs => a == b && charListStartsWith as bs

/-- Helper for `strContains`: does `p` occur inside `l`? -/
def charListContains (p : List Char) : List Char → Bool
  | [] => charListStartsWith p []
  | b :: bs => charListStartsWith p (b :: bs) || charListContains p bs

/-- Python `pat in s` on strings. -/
def strContains (s pat : String) : Bool :=
  charListContains pat.toList s.toList

/-- np.linspace(-8, 8, 9): the bar-offset sample points stored in
`self.psf_bar_xvals`. -/
def linspace9 : Fin 9 → ℚ := fun k => -8 + 2 * (k : ℚ)

/-- Interval index used by 1-D linear interpolation with extrapolation over
nine increasing sample points (scipy `interp1d(kind='linear',
fill_value='extrapolate')`): queries below the first interior knot use
segment 0 and queries at or beyond the last interior knot use segment 7,
which reproduces linear extrapolation with the end-segment slopes. -/
def interpSeg (xvals : Fin 9 → ℚ) (x : ℚ) : Fin 8 :=
  if x < xvals 1 then 0
  else if x < xvals 2 then 1
  else if x < xvals 3 then 2
  else if x < xvals 4 then 3
  else if x < xvals 5 then 4
  else if x < xvals 6 then 5
  else if x < xvals 7 then 6
  else 7

/-- `interp1d(self.psf_bar_xvals, self.psf_on, kind='linear',
fill_value='extrapolate', axis=0)` evaluated at one bar offset `x`:
frame-stack linear interpolation along the bar-offset axis. -/
def barInterp {n : ℕ} (xvals : Fin 9 → ℚ) (arr : Fin 9 → Image n) (x : ℚ) :
    Image n :=
  let s := interpSeg xvals x
  let x0 := xvals s.castSucc
  let x1 := xvals s.succ
  fun i j =>
    arr s.castSucc i j + (arr s.succ i j - arr s.castSucc i j) * (x - x0) / (x1 - x0)

/-- numpy `arr.reshape([1, ny, nx])` applied to a stack of `N` frames of
`ny*nx` pixels each: succeeds exactly when the element count already is
`1*ny*nx`, i.e. when `N = 1`; otherwise numpy raises ValueError. -/
def reshape1 {n N : ℕ} (s : Fin N → Image n) : Option (Image n) :=
  if h : N = 1 then some (s ⟨0, by omega⟩) else none

/-- On-axis reference image the quick path blends against at one query
position: for bar masks the bar array interpolated at the position's idl
x-coordinate, otherwise the single on-axis reference. -/
def psf_on_sel {n : ℕ} (E : Engine n) (cx : ℚ) : Image n :=
  if strLast E.image_mask = some 'B' then
    barInterp E.psf_bar_xvals E.psf_on_bar cx
  else
    E.psf_on_sngl

/-- Body of `JWST_PSF.gen_psf_idl` up to (and including) the `do_shift`
step, always still oversampled.  Quick path: query `_transmission_map`,
square the amplitude into intensity weights `avals = t**2`,
`bvals = 1 - avals`, select/interpolate the on-axis reference (for 'B'
masks the interpolated stack is forced through `reshape([1,ny,nx])`, which
fails for more than one frame), and blend.  Slow path: external
`calc_psf`, then recentering by the stored `_xy_off_to_cen` offset.
`do_shift` converts the idl offsets to oversampled pixels via the aperture
pixel scale and Fourier-shifts each frame by its own offset. -/
def gen_psf_idl_over {n d : ℕ} (E : Engine n) (X : ExtOps n d) {N : ℕ}
    (coords : Fin N → ℚ × ℚ) (coord_frame : Frame) (quick do_shift : Bool) :
    Option (Fin N → Image n) :=
  let blended : Option (Fin N → Image n) :=
    if quick then
      let tm := fun k => X.tmap coord_frame (coords k)
      let avals := fun k => (tm k).1 ^ 2
      let bvals := fun k => 1 - avals k
      if strLast E.image_mask = some 'B' then
        match reshape1 (fun k => barInterp E.psf_bar_xvals E.psf_on_bar (tm k).2.1) with
        | none => none
        | some psf_on =>
            some (fun k i j => avals k * E.psf_off i j + bvals k * psf_on i j)
      else
        some (fun k i j => avals k * E.psf_off i j + bvals k * E.psf_on_sngl i j)
    else
      let psfs := X.calc_psf coords coord_frame
      some (fun k =>
        X.fourier_imshift (psfs k) E.xy_off_to_cen.1 E.xy_off_to_cen.2)
  match blended with
  | none => none
  | some psfs =>
    if do_shift then
      let xy_idl := fun k =>
        match coord_frame with
        | Frame.idl => coords k
        | f => X.convert (coords k) f Frame.idl
      some (fun k =>
        X.fourier_imshift (psfs k)
          ((E.oversample : ℚ) * (xy_idl k).1 / E.XSciScale)
          ((E.oversample : ℚ) * (xy_idl k).2 / E.YSciScale))
    else
      some psfs

/-- `JWST_PSF.gen_psf_idl`: the oversampled pipeline above followed by the
optional `frebin` resampling to detector pixels. -/
def gen_psf_idl {n d : ℕ} (E : Engine n) (X : ExtOps n d) {N : ℕ}
    (coords : Fin N → ℚ × ℚ) (coord_frame : Frame)
    (quick do_shift return_oversample : Bool) : Option (PsfOut n d N) :=
  (gen_psf_idl_over E X coords coord_frame quick do_shift).map fun psfs =>
    if return_oversample then PsfOut.over psfs
    else PsfOut.det (fun k => X.frebin (psfs k))

/-- np.sum over a whole stack (all frames, all pixels), as used by
`gen_psf`'s normalization step. -/
def npSumStack {n N : ℕ} (s : Fin N → Image n) : ℚ :=
  ∑ k, ∑ i, ∑ j, s k i j

/-- Sum of one frame of an image. -/
def frameSum {n : ℕ} (im : Image n) : ℚ := ∑ i, ∑ j, im i j

/-- np.sum of a `gen_psf` result (grand total over every frame). -/
def sumPsfOut {n d N : ℕ} : PsfOut n d N → ℚ
  | PsfOut.over s => npSumStack s
  | PsfOut.det s => npSumStack s

/-- `psf = psf / np.sum(psf)`: every pixel of every frame divided by the
grand total. -/
def normalizeOut {n d N : ℕ} : PsfOut n d N → PsfOut n d N
  | PsfOut.over s => PsfOut.over (fun k i j => s k i j / npSumStack s)
  | PsfOut.det s => PsfOut.det (fun k i j => s k i j / npSumStack s)

/-- Frame `k` of an oversampled result (all-zero for detector-sampled
results; used only to observe oversampled outputs in concrete checks). -/
def outFrame {n d N : ℕ} (o : PsfOut n d N) (k : Fin N) : Image n :=
  match o with
  | PsfOut.over s => s k
  | PsfOut.det _ => fun _ _ => 0

/-- `JWST_PSF.rth_to_xy`: aperture position angle
`PA_ap = PA_V3 + V3IdlYAngle` (when `addV3Yidl`), effective angle
`th_fin = th - PA_ap`, then `rtheta_to_xy`; results in any frame other than
'idl' go through the external aperture converter. -/
def rth_to_xy {n d : ℕ} (E : Engine n) (X : ExtOps n d) (r th PA_V3 : ℚ)
    (frame_out : Frame) (addV3Yidl : Bool) : ℚ × ℚ :=
  let PA_ap := if addV3Yidl then PA_V3 + E.V3IdlYAngle else PA_V3
  let th_fin := th - PA_ap
  let xy := X.rtheta_to_xy r th_fin
  match frame_out with
  | Frame.idl => xy
  | f => X.convert xy Frame.idl f

/-- `loc` interpretation of `gen_psf`: 'xy' or 'rth'. -/
inductive LocMode where
  | xy
  | rth
deriving DecidableEq

/-- Body of `JWST_PSF.gen_psf` before its final normalization lines:
resolve the location into the idl frame (via `rth_to_xy` in 'rth' mode),
call `gen_psf_idl` with `return_oversample=True`, then, when `do_shift` is
set, rotate each still-oversampled frame by `-(PA_V3 + V3IdlYAngle)` with
`reshape=False` and `cval=0`; resample with `frebin` only afterwards (when
`return_oversample` is not requested). -/
def gen_psf_core {n d : ℕ} (E : Engine n) (X : ExtOps n d) {N : ℕ}
    (loc : Fin N → ℚ × ℚ) (mode : LocMode) (PA_V3 : ℚ)
    (return_oversample do_shift addV3Yidl quick : Bool) :
    Option (PsfOut n d N) :=
  let xy : Fin N → ℚ × ℚ := fun k =>
    match mode with
    | LocMode.rth => rth_to_xy E X (loc k).1 (loc k).2 PA_V3 Frame.idl addV3Yidl
    | LocMode.xy => loc k
  match gen_psf_idl E X xy Frame.idl quick do_shift true with
  | some (PsfOut.over psf0) =>
    let psf1 := if do_shift then
        fun k => X.rotate (-(PA_V3 + E.V3IdlYAngle)) false 0 (psf0 k)
      else psf0
    some (if return_oversample then PsfOut.over psf1
      else PsfOut.det (fun k => X.frebin (psf1 k)))
  | _ => none

/-- `JWST_PSF.gen_psf`: the pipeline above, then the final normalization
lines of the source (`psf = psf / np.sum(psf)` when `normalize`). -/
def gen_psf {n d : ℕ} (E : Engine n) (X : ExtOps n d) {N : ℕ}
    (loc : Fin N → ℚ × ℚ) (mode : LocMode) (PA_V3 : ℚ)
    (return_oversample do_shift addV3Yidl normalize quick : Bool) :
    Option (PsfOut n d N) :=
  (gen_psf_core E X loc mode PA_V3 return_oversample do_shift addV3Yidl quick).map
    fun psf => if normalize then normalizeOut psf else psf

/-- Image operations used by `_calc_psf_off_shift` over an abstract image
type `τ` (the cropped windows have Python-side sizes `xysub+10` and `xysub`
which the external operations track themselves): `pad_or_cut_to_size` with a
target size, `fourier_imshift`, and the astropy `Gaussian2D` +
`LevMarLSQFitter` fit returning the fitted `(x_mean, y_mean)` (initialized
exactly as in the source from the crop). -/
structure ImOps (τ : Type) where
  pad_or_cut : τ → ℕ → τ
  fourier_imshift : τ → ℚ → ℚ → τ
  gauss_fit : τ → ℚ × ℚ

/-- Mean of `np.arange(m)`, the geometric window center `xc = yc` used by
`_calc_psf_off_shift`. -/
def arangeMean (m : ℕ) : ℚ := (∑ i ∈ Finset.range m, (i : ℚ)) / m

/-- `JWST_PSF._calc_psf_off_shift`: crop the off-axis PSF to a window of
`xysub+10`, then `for ii in range(2)`: crop to `xysub`, Gaussian-fit, add
the residual between the geometric window center and the fitted center to
the accumulated offset, and Fourier-shift the working template by the
residual.  Returns the accumulated `(xoff, yoff)` that `__init__` stores in
`_xy_off_to_cen`. -/
def calc_psf_off_shift {τ : Type} (ops : ImOps τ) (psf_off : τ) (xysub : ℕ) :
    ℚ × ℚ :=
  let xc := arangeMean xysub
  let yc := arangeMean xysub
  let step := fun (st : (ℚ × ℚ) × τ) (_ : ℕ) =>
    let psf_off_crop := ops.pad_or_cut st.2 xysub
    let pfit := ops.gauss_fit psf_off_crop
    let xcen := xc - pfit.1
    let ycen := yc - pfit.2
    ((st.1.1 + xcen, st.1.2 + ycen), ops.fourier_imshift st.2 xcen ycen)
  (((List.range 2).foldl step ((0, 0), ops.pad_or_cut psf_off (xysub + 10)))).1

/-- Instrument extension classes dispatched on in `__init__`
(webbpsf_ext.NIRCam_ext / MIRI_ext). -/
inductive InstExt where
  | nircam
  | miri
deriving DecidableEq

/-- Uncaught Python exceptions that `JWST_PSF.__init__` can raise:
accessing the never-assigned `self.inst_ext` for an unrecognized instrument
(AttributeError at the `self.inst_ext(...)` call), `image_mask[-1]` on an
empty mask string (IndexError in the pupil selection), and
`image_mask[-1]` on `None` (TypeError at the on/off-axis bar-array branch). -/
inductive InitError where
  | attrErrorInstExt
  | indexErrorEmptyMask
  | typeErrorMaskNone
deriving DecidableEq

/-- Lines 64-68 of psf.py: assign `self.inst_ext` for NIRCAM or MIRI; any
other instrument leaves the attribute unassigned (`none`). -/
def select_inst_ext (inst : String) : Option InstExt :=
  if strUpper inst = "NIRCAM" then some InstExt.nircam
  else if strUpper inst = "MIRI" then some InstExt.miri
  else none

/-- Lines 70-78 of psf.py: choose the pupil mask from the image-mask name.
`None` maps to no pupil mask; suffix 'R' to CIRCLYOT; suffix 'B' to
WEDGELYOT; every other suffix silently falls through to MASKFQPM (when the
name contains 'FQPM') or MASKLYOT. -/
def choose_pupil_mask : Option String → Except InitError (Option String)
  | none => Except.ok none
  | some m =>
    match strLast m with
    | none => Except.error InitError.indexErrorEmptyMask
    | some c =>
      if c = 'R' then Except.ok (some "CIRCLYOT")
      else if c = 'B' then Except.ok (some "WEDGELYOT")
      else Except.ok (some (if strContains m "FQPM" then "MASKFQPM" else "MASKLYOT"))

/-- Construction-time external collaborators: the on-axis PSF computation at
a bar offset `(xv, 0)` in the idl frame, the centered on-axis computation,
the off-axis computation, and the image operations for recentering.
(OPD loading, spectrum renormalization and the webbpsf_ext class
constructors are further external steps that produce these functions.) -/
structure InitExt (n : ℕ) where
  calc_on_coord : ℚ × ℚ → Image n
  calc_on_center : Image n
  calc_off : Image n
  imops : ImOps (Image n)

/-- `JWST_PSF.__init__` as a fallible construction.  Order of effects as in
the source: instrument dispatch (lines 64-68) leaves `inst_ext` unassigned
for unknown instruments, pupil selection (lines 70-78, may raise on an empty
mask name), the `self.inst_ext(...)` accesses (line 80, AttributeError when
unassigned), then the on-axis branch `image_mask[-1] == 'B'` (line 121,
TypeError when `image_mask` is `None`), the off-axis PSF, and recentering of
both references by `_calc_psf_off_shift` with `xysub = 10`. -/
def jwst_psf_init {n : ℕ} (X : InitExt n) (inst : String)
    (image_mask : Option String) (fov_pix oversample : ℕ)
    (V3IdlYAngle XSciScale YSciScale : ℚ) : Except InitError (Engine n) :=
  let instExt? := select_inst_ext inst
  match choose_pupil_mask image_mask with
  | Except.error e => Except.error e
  | Except.ok pupil =>
    match instExt? with
    | none => Except.error InitError.attrErrorInstExt
    | some _instExt =>
      match image_mask with
      | none => Except.error InitError.typeErrorMaskNone
      | some m =>
        let psf_on_bar0 : Fin 9 → Image n :=
          fun k => X.calc_on_coord (linspace9 k, 0)
        let psf_on_sngl0 : Image n := X.calc_on_center
        let psf_off0 := X.calc_off
        let xy := calc_psf_off_shift X.imops psf_off0 10
        let sh := fun (im : Image n) => X.imops.fourier_imshift im xy.1 xy.2
        Except.ok
          { image_mask := m
            pupil_mask := pupil
            fov_pix := fov_pix
            oversample := oversample
            psf_bar_xvals := linspace9
            psf_on_bar :=
              if strLast m = some 'B' then fun k => sh (psf_on_bar0 k)
              else fun _ _ _ => 0
            psf_on_sngl :=
              if strLast m = some 'B' then fun _ _ => 0
              else sh psf_on_sngl0
            psf_off := sh psf_off0
            xy_off_to_cen := xy
            V3IdlYAngle := V3IdlYAngle
            XSciScale := XSciScale
            YSciScale := YSciScale }

/-- Did construction succeed? -/
def initOk {n : ℕ} : Except InitError (Engine n) → Bool
  | Except.ok _ => true
  | Except.error _ => false

/-- The error construction stopped with, if any. -/
def initErr {n : ℕ} : Except InitError (Engine n) → Option InitError
  | Except.ok _ => none
  | Except.error e => some e

/-- The pupil mask the constructed engine carries, if construction
succeeded. -/
def initPupil {n : ℕ} : Except InitError (Engine n) → Option (Option String)
  | Except.ok e => some e.pupil_mask
  | Except.error _ => none

/-- `gen_psf_idl` viewed as a state transformer on the engine: the returned
engine is the receiver after the call.  The method body contains no
assignment to any `self` attribute (neither on its normal path nor before
any of its failure points), so the post-state is exactly the pre-state. -/
def gen_psf_idl_call {n d : ℕ} (E : Engine n) (X : ExtOps n d) {N : ℕ}
    (coords : Fin N → ℚ × ℚ) (coord_frame : Frame)
    (quick do_shift return_oversample : Bool) :
    Option (PsfOut n d N) × Engine n :=
  (gen_psf_idl E X coords coord_frame quick do_shift return_oversample, E)

/-- `gen_psf` viewed as a state transformer on the engine; the method body
contains no assignment to any `self` attribute. -/
def gen_psf_call {n d : ℕ} (E : Engine n) (X : ExtOps n d) {N : ℕ}
    (loc : Fin N → ℚ × ℚ) (mode : LocMode) (PA_V3 : ℚ)
    (return_oversample do_shift addV3Yidl normalize quick : Bool) :
    Option (PsfOut n d N) × Engine n :=
  (gen_psf E X loc mode PA_V3 return_oversample do_shift addV3Yidl normalize quick, E)

/-- `rth_to_xy` viewed as a state transformer on the engine; the method body
contains no assignment to any `self` attribute. -/
def rth_to_xy_call {n d : ℕ} (E : Engine n) (X : ExtOps n d)
    (r th PA_V3 : ℚ) (frame_out : Frame) (addV3Yidl : Bool) :
    (ℚ × ℚ) × Engine n :=
  (rth_to_xy E X r th PA_V3 frame_out addV3Yidl, E)

/-- Constant 1×1 image with value 1 (concrete off-axis reference). -/
def imC : Image 1 := fun _ _ => 1

/-- Constant 1×1 image with value 2 (concrete on-axis reference). -/
def imOn2 : Image 1 := fun _ _ => 2

/-- Concrete external collaborators over 1×1 images, parametrized by the
transmission map; the other operations are simple distinguishable
functions. -/
def mkExtOps (t : ℚ × ℚ → ℚ × ℚ × ℚ) : ExtOps 1 1 where
  tmap := fun _ p => t p
  convert := fun p _ _ => p
  rtheta_to_xy := fun r th => (r + th, r - th)
  fourier_imshift := fun im dx dy i j => im i j + dx + dy
  frebin := fun im i j => im i j + 100
  rotate := fun a _ c im i j => im i j + a + c + 10
  calc_psf := fun _ _ _ _ _ => 3

/-- Collaborators whose transmission amplitude is 1 everywhere. -/
def extT1 : ExtOps 1 1 := mkExtOps (fun p => (1, p.1, p.2))

/-- Collaborators whose transmission amplitude is 1/2 everywhere. -/
def extHalf : ExtOps 1 1 := mkExtOps (fun p => (1 / 2, p.1, p.2))

/-- Collaborators whose transmission amplitude is 1 at x = 0 and 0
elsewhere. -/
def extSel : ExtOps 1 1 := mkExtOps (fun p => (if p.1 = 0 then 1 else 0, p.1, p.2))

/-- Collaborators agreeing with `extHalf` except for the aperture frame
converter (used to show `rth_to_xy` with 'idl' output never consults it). -/
def extHalfConv : ExtOps 1 1 := { extHalf with convert := fun _ _ _ => (99, 99) }

/-- Concrete engine with a round ('R') mask over 1×1 images. -/
def engR : Engine 1 where
  image_mask := "MASK335R"
  pupil_mask := some "CIRCLYOT"
  fov_pix := 1
  oversample := 1
  psf_bar_xvals := linspace9
  psf_on_bar := fun _ _ _ => 0
  psf_on_sngl := imOn2
  psf_off := imC
  xy_off_to_cen := (0, 0)
  V3IdlYAngle := 0
  XSciScale := 1
  YSciScale := 1

/-- Concrete engine with a bar ('B') mask over 1×1 images; the on-axis bar
array holds the bar offset index as pixel value. -/
def engBar : Engine 1 where
  image_mask := "MASKLWB"
  pupil_mask := some "WEDGELYOT"
  fov_pix := 1
  oversample := 1
  psf_bar_xvals := linspace9
  psf_on_bar := fun v _ _ => (v : ℚ)
  psf_on_sngl := fun _ _ => 0
  psf_off := imC
  xy_off_to_cen := (0, 0)
  V3IdlYAngle := 0
  XSciScale := 1
  YSciScale := 1

/-- Concrete construction-time collaborators over 1×1 images. -/
def initExtC : InitExt 1 where
  calc_on_coord := fun p _ _ => p.1
  calc_on_center := imOn2
  calc_off := imC
  imops :=
    { pad_or_cut := fun im _ => im
      fourier_imshift := fun im dx dy i j => im i j + dx + dy
      gauss_fit := fun _ => (9 / 2, 9 / 2) }

/-- Frame stack `gen_psf_idl` produces for `engR`/`extHalf` at position
(0,0): with t = 1/2 every pixel is 1/4 · 1 + 3/4 · 2. -/
def blendW : Fin 1 → Image 1 := fun _ i j =>
  (extHalf.tmap Frame.idl (0, 0)).1 ^ 2 * engR.psf_off i j
    + (1 - (extHalf.tmap Frame.idl (0, 0)).1 ^ 2) * engR.psf_on_sngl i j

/-- Query batch for the C7 witness: position 0 has idl x-coordinate 0
(transmission 1 under `extSel`), position 1 has x-coordinate 5
(transmission 0). -/
def coordsSel : Fin 2 → ℚ × ℚ := fun k => (if k = 0 then 0 else 5, 0)

/-- Frame stack `gen_psf_idl` produces for `engR`/`extSel` on `coordsSel`. -/
def selW : Fin 2 → Image 1 := fun k i j =>
  (extSel.tmap Frame.idl (coordsSel k)).1 ^ 2 * engR.psf_off i j
    + (1 - (extSel.tmap Frame.idl (coordsSel k)).1 ^ 2) * engR.psf_on_sngl i j

/-- Frame stack the `gen_psf` pipeline produces for `engR`/`extT1` on a
batch of two identical positions (0,0): transmission 1 gives the off-axis
value 1 in every pixel of both frames. -/
def t1W : Fin 2 → Image 1 := fun _ i j =>
  (extT1.tmap Frame.idl (0, 0)).1 ^ 2 * engR.psf_off i j
    + (1 - (extT1.tmap Frame.idl (0, 0)).1 ^ 2) * engR.psf_on_sngl i j

/-- Single-position variant of `t1W` (the frame stack for one query at
(0,0) under `engR`/`extT1`), used by amended-claim witnesses. -/
def t1W1 : Fin 1 → Image 1 := fun _ i j =>
  (extT1.tmap Frame.idl (0, 0)).1 ^ 2 * engR.psf_off i j
    + (1 - (extT1.tmap Frame.idl (0, 0)).1 ^ 2) * engR.psf_on_sngl i j

/-- Frame stack `gen_psf_idl` produces for `engR`/`extHalf` at position
(0,0) with `do_shift=True`: the blend of `blendW` Fourier-shifted by the
(zero) pixel offset of the origin. -/
def shW : Fin 1 → Image 1 := fun k =>
  extHalf.fourier_imshift (blendW k)
    ((engR.oversample : ℚ) * 0 / engR.XSciScale)
    ((engR.oversample : ℚ) * 0 / engR.YSciScale)

/-- Evaluation of the quick path of `gen_psf_idl` (no shift, oversampled
output): every produced frame is the intensity-weighted blend of the
off-axis reference and the selected on-axis reference.  Shared support for
the claims about the blending formula. -/
theorem quick_blend_eval {n d : ℕ} (E : Engine n) (X : ExtOps n d) {N : ℕ}
    (coords : Fin N → ℚ × ℚ) (frame : Frame) (s : Fin N → Image n)
    (h : gen_psf_idl E X coords frame true false true = some (PsfOut.over s))
    (k : Fin N) (i j : Fin n) :
    s k i j =
      (X.tmap frame (coords k)).1 ^ 2 * E.psf_off i j
        + (1 - (X.tmap frame (coords k)).1 ^ 2)
          * psf_on_sel E ((X.tmap frame (coords k)).2.1) i j := by
  unfold gen_psf_idl gen_psf_idl_over at h
  by_cases hB : strLast E.image_mask = some 'B'
  · by_cases hN : N = 1
    · subst hN
      simp only [hB, if_true, if_pos, reshape1, Option.map, Bool.false_eq_true,
        if_false, dif_pos] at h
      obtain rfl : k = ⟨0, by omega⟩ := Subsingleton.elim k _
      simp only [Option.some.injEq, PsfOut.over.injEq] at h
      rw [← h]
      simp [psf_on_sel, hB]
    · simp [hB, reshape1, hN] at h
  · simp only [hB, if_true, if_false, Bool.false_eq_true, Option.map,
      Option.some.injEq, PsfOut.over.injEq] at h
    rw [← h]
    simp [psf_on_sel, hB]

/-- C1: For every query position, the quick-mode blended PSF produced by
`gen_psf_idl` equals, elementwise, t²·off_axis_image + (1−t²)·on_axis_image,
where t is the mask amplitude transmission at that position (off-axis weight
is the squared amplitude t², on-axis weight is 1 − t²), one output frame per
position. -/
theorem gen_psf_idl_quick_blend {n d : ℕ} (E : Engine n) (X : ExtOps n d)
    {N : ℕ} (coords : Fin N → ℚ × ℚ) (frame : Frame) (s : Fin N → Image n)
    (h : gen_psf_idl E X coords frame true false true = some (PsfOut.over s))
    (k : Fin N) (i j : Fin n) :
    s k i j =
      (X.tmap frame (coords k)).1 ^ 2 * E.psf_off i j
        + (1 - (X.tmap frame (coords k)).1 ^ 2)
          * psf_on_sel E ((X.tmap frame (coords k)).2.1) i j :=
  quick_blend_eval E X coords frame s h k i j

/-- Witness for C1 at the concrete engine `engR`, collaborators `extHalf`
and position (0,0). -/
theorem gen_psf_idl_quick_blend_witness :
    blendW 0 0 0 =
      (extHalf.tmap Frame.idl (0, 0)).1 ^ 2 * engR.psf_off 0 0
        + (1 - (extHalf.tmap Frame.idl (0, 0)).1 ^ 2)
          * psf_on_sel engR ((extHalf.tmap Frame.idl (0, 0)).2.1) 0 0 :=
  gen_psf_idl_quick_blend engR extHalf (fun _ => (0, 0)) Frame.idl blendW
    rfl 0 0 0

/-- C7: In quick mode with no shift requested, a query position with
transmission amplitude exactly 1 yields exactly the off-axis reference
frame, and a position with amplitude exactly 0 yields exactly the selected
(for bar masks: interpolated at the position's bar-offset coordinate)
on-axis reference frame. -/
theorem gen_psf_idl_extreme_transmission {n d : ℕ} (E : Engine n)
    (X : ExtOps n d) {N : ℕ} (coords : Fin N → ℚ × ℚ) (frame : Frame)
    (s : Fin N → Image n)
    (h : gen_psf_idl E X coords frame true false true = some (PsfOut.over s))
    (k : Fin N) :
    ((X.tmap frame (coords k)).1 = 1 → s k = E.psf_off)
    ∧ ((X.tmap frame (coords k)).1 = 0 →
        s k = psf_on_sel E ((X.tmap frame (coords k)).2.1)) := by
  constructor
  · intro ht
    funext i j
    rw [quick_blend_eval E X coords frame s h k i j, ht]
    ring
  · intro ht
    funext i j
    rw [quick_blend_eval E X coords frame s h k i j, ht]
    ring

/-- Witness for C7: at transmission 1 the produced frame is the off-axis
reference; at transmission 0 it is the selected on-axis reference. -/
theorem gen_psf_idl_extreme_transmission_witness :
    selW 0 = engR.psf_off
    ∧ selW 1 = psf_on_sel engR ((extSel.tmap Frame.idl (coordsSel 1)).2.1) :=
  ⟨(gen_psf_idl_extreme_transmission engR extSel coordsSel Frame.idl selW rfl 0).1
      (by norm_num [extSel, mkExtOps, coordsSel]),
   (gen_psf_idl_extreme_transmission engR extSel coordsSel Frame.idl selW rfl 1).2
      (by norm_num [extSel, mkExtOps, coordsSel])⟩

/-- Dividing every pixel of a stack by a constant divides the grand total. -/
theorem npSumStack_div {n N : ℕ} (s : Fin N → Image n) (c : ℚ) :
    npSumStack (fun k i j => s k i j / c) = npSumStack s / c := by
  simp [npSumStack, Finset.sum_div]

/-- Normalization makes the grand total of a result 1 whenever the
pre-normalization grand total is nonzero. -/
theorem sumPsfOut_normalizeOut {n d N : ℕ} (o : PsfOut n d N)
    (hs : sumPsfOut o ≠ 0) : sumPsfOut (normalizeOut o) = 1 := by
  cases o with
  | over s =>
    simp only [sumPsfOut, normalizeOut, npSumStack_div] at hs ⊢
    exact div_self hs
  | det s =>
    simp only [sumPsfOut, normalizeOut, npSumStack_div] at hs ⊢
    exact div_self hs

/-- C2 counterexample: `gen_psf` with `normalize=True` on a batch of two
positions (transmission 1 everywhere, off-axis reference of unit total)
returns frames that sum to 1/2 each, not 1, because the source divides by
`np.sum` over the whole stack. -/
theorem gen_psf_normalize_batch_cex :
    (gen_psf engR extT1 (fun _ : Fin 2 => (0, 0)) LocMode.xy 0
        true false true true true).map (fun o => frameSum (outFrame o 0))
      = some (1 / 2)
    ∧ ((1 : ℚ) / 2) ≠ 1 := by
  have hcore : gen_psf engR extT1 (fun _ : Fin 2 => (0, 0)) LocMode.xy 0
      true false true true true = some (normalizeOut (PsfOut.over t1W)) := rfl
  rw [hcore]
  constructor
  · show some (frameSum (outFrame (normalizeOut (PsfOut.over t1W)) 0)) = _
    norm_num [t1W, extT1, mkExtOps, engR, imC, imOn2, npSumStack,
      Fin.sum_univ_two, Fin.sum_univ_one, frameSum, outFrame, normalizeOut]
  · norm_num

/-- C2 (amended): when `gen_psf` is called with `normalize=True` and the
pre-normalization grand total is nonzero, the sum over the WHOLE returned
array — all frames together — equals exactly 1.  (The source divides by
`np.sum` over the full stack, so in a batch the individual frames sum to 1
only jointly, and a zero-total stack cannot be normalized at all.) -/
theorem gen_psf_normalize_total_sum {n d : ℕ} (E : Engine n) (X : ExtOps n d)
    {N : ℕ} (loc : Fin N → ℚ × ℚ) (mode : LocMode) (PA : ℚ)
    (ro ds av q : Bool) (o : PsfOut n d N)
    (h : gen_psf E X loc mode PA ro ds av false q = some o)
    (hs : sumPsfOut o ≠ 0) :
    gen_psf E X loc mode PA ro ds av true q = some (normalizeOut o)
    ∧ sumPsfOut (normalizeOut o) = 1 := by
  have hcore : gen_psf_core E X loc mode PA ro ds av q = some o := by
    unfold gen_psf at h
    cases hg : gen_psf_core E X loc mode PA ro ds av q with
    | none => rw [hg] at h; exact absurd h (by simp)
    | some p =>
      rw [hg] at h
      simp only [Option.map_some', Bool.false_eq_true, if_false,
        Option.some.injEq] at h
      rw [h]
  refine ⟨?_, sumPsfOut_normalizeOut o hs⟩
  unfold gen_psf
  rw [hcore]
  rfl

/-- Witness for the amended C2: a single position with nonzero total, where
the normalized output exists and its grand total is 1. -/
theorem gen_psf_normalize_total_sum_witness :
    gen_psf engR extT1 (fun _ : Fin 1 => (0, 0)) LocMode.xy 0 true false true
        true true = some (normalizeOut (PsfOut.over t1W1 : PsfOut 1 1 1))
    ∧ sumPsfOut (normalizeOut (PsfOut.over t1W1 : PsfOut 1 1 1)) = 1 :=
  gen_psf_normalize_total_sum engR extT1 (fun _ => (0, 0)) LocMode.xy 0
    true false true true (PsfOut.over t1W1) rfl
    (by norm_num [sumPsfOut, npSumStack, t1W1, extT1, mkExtOps, engR, imC,
      imOn2, Fin.sum_univ_one])

/-- C3 counterexample: constructing with MIRI and mask 'FQPM1550' (suffix
'0', neither 'R' nor 'B') silently selects the MASKFQPM pupil and
construction continues to a usable engine — no configuration error is
reported. -/
theorem init_silent_pupil_default_cex :
    choose_pupil_mask (some "FQPM1550") = Except.ok (some "MASKFQPM")
    ∧ initOk (jwst_psf_init initExtC "MIRI" (some "FQPM1550") 1 1 0 1 1) = true
    ∧ initPupil (jwst_psf_init initExtC "MIRI" (some "FQPM1550") 1 1 0 1 1)
        = some (some "MASKFQPM") :=
  ⟨rfl, rfl, rfl⟩

/-- C3 (amended): a mask whose last character is neither 'R' nor 'B' makes
pupil selection silently fall through to MASKFQPM (name containing 'FQPM')
or MASKLYOT, with no error, and construction proceeds; an instrument
outside NIRCAM/MIRI leaves `inst_ext` unassigned, so construction stops
with the uncaught AttributeError at the `self.inst_ext(...)` call — in
neither case is an explicit configuration error reported. -/
theorem init_unrecognized_silent_default {n : ℕ} (X : InitExt n)
    (inst : String) (m : String) (c : Char) (hc : strLast m = some c)
    (hR : c ≠ 'R') (hB : c ≠ 'B') (fov os : ℕ) (v xs ys : ℚ) :
    choose_pupil_mask (some m)
      = Except.ok (some (if strContains m "FQPM" then "MASKFQPM" else "MASKLYOT"))
    ∧ initErr (jwst_psf_init X inst (some m) fov os v xs ys)
      = if (select_inst_ext inst).isSome then none
        else some InitError.attrErrorInstExt := by
  have hp : choose_pupil_mask (some m)
      = Except.ok (some (if strContains m "FQPM" then "MASKFQPM" else "MASKLYOT")) := by
    simp only [choose_pupil_mask]
    rw [hc]
    simp [hR, hB]
  refine ⟨hp, ?_⟩
  unfold jwst_psf_init
  rw [hp]
  cases hi : select_inst_ext inst with
  | none => rfl
  | some e => rfl

/-- Witness for the amended C3 at instrument 'GEMINI' and mask 'LYOT2300'. -/
theorem init_unrecognized_silent_default_witness :
    choose_pupil_mask (some "LYOT2300")
      = Except.ok (some (if strContains "LYOT2300" "FQPM" then "MASKFQPM"
          else "MASKLYOT"))
    ∧ initErr (jwst_psf_init initExtC "GEMINI" (some "LYOT2300") 1 1 0 1 1)
      = if (select_inst_ext "GEMINI").isSome then none
        else some InitError.attrErrorInstExt :=
  init_unrecognized_silent_default initExtC "GEMINI" "LYOT2300" '0' rfl
    (by decide) (by decide) 1 1 0 1 1

/-- C4 (code bug): in quick mode with a bar ('B') mask, one batched call
over two positions fails at `psf_on.reshape([1,ny,nx])` (the interpolated
on-axis stack has two frames, so numpy raises ValueError → `none` here),
while each of the two single-position calls succeeds.  This contradicts the
batched-equals-sequential property and the method's own docstring, which
advertises batched `coord_vals` ("If multiple values, then this should be
an array ([xvals], [yvals])"). -/
theorem gen_psf_idl_bar_batch_fails :
    gen_psf_idl engBar extHalf (fun k : Fin 2 => (((k : ℕ) : ℚ), 0))
        Frame.idl true false true = none
    ∧ (gen_psf_idl engBar extHalf (fun _ : Fin 1 => (0, 0))
        Frame.idl true false true).isSome = true
    ∧ (gen_psf_idl engBar extHalf (fun _ : Fin 1 => (1, 0))
        Frame.idl true false true).isSome = true :=
  ⟨rfl, rfl, rfl⟩

/-- C5: with `do_shift=True` the already-shifted, still-oversampled frames
from `gen_psf_idl` are rotated by the negative effective aperture position
angle −(PA_V3 + V3IdlYAngle), with `reshape=False` (shape preserving) and
`cval=0` (zero fill outside the footprint), and only after this rotation
are they resampled to detector pixels by `frebin` (when
`return_oversample` is not requested). -/
theorem gen_psf_rotate_before_resample {n d : ℕ} (E : Engine n)
    (X : ExtOps n d) {N : ℕ} (loc : Fin N → ℚ × ℚ) (PA : ℚ) (av q : Bool)
    (s : Fin N → Image n)
    (h : gen_psf_idl E X loc Frame.idl q true true = some (PsfOut.over s)) :
    gen_psf E X loc LocMode.xy PA false true av false q
      = some (PsfOut.det (fun k =>
          X.frebin (X.rotate (-(PA + E.V3IdlYAngle)) false 0 (s k)))) := by
  simp only [gen_psf, gen_psf_core]
  rw [h]
  simp

/-- Witness for C5 at the concrete engine `engR`, collaborators `extHalf`,
position (0,0) and PA_V3 = 3. -/
theorem gen_psf_rotate_before_resample_witness :
    gen_psf engR extHalf (fun _ : Fin 1 => (0, 0)) LocMode.xy 3
        false true true false true
      = some (PsfOut.det (fun k =>
          extHalf.frebin (extHalf.rotate (-(3 + engR.V3IdlYAngle)) false 0
            (shW k)))) :=
  gen_psf_rotate_before_resample engR extHalf (fun _ => (0, 0)) 3 true true
    shW rfl

/-- C6: `rth_to_xy` computes the effective angle
th_fin = th − (PA_V3 + V3IdlYAngle) and returns `rtheta_to_xy r th_fin`;
with frame_out='idl' the pair is returned directly, never consulting the
external aperture converter (collaborators differing only in `convert`
give identical results). -/
theorem rth_to_xy_idl_direct {n d : ℕ} (E : Engine n) (X Y : ExtOps n d)
    (r th PA_V3 : ℚ) (hxy : X.rtheta_to_xy = Y.rtheta_to_xy) :
    rth_to_xy E X r th PA_V3 Frame.idl true
      = X.rtheta_to_xy r (th - (PA_V3 + E.V3IdlYAngle))
    ∧ rth_to_xy E X r th PA_V3 Frame.idl true
      = rth_to_xy E Y r th PA_V3 Frame.idl true := by
  refine ⟨rfl, ?_⟩
  unfold rth_to_xy
  rw [hxy]

/-- Witness for C6: concrete collaborators differing only in the aperture
converter produce the same idl-frame answer. -/
theorem rth_to_xy_idl_direct_witness :
    rth_to_xy engR extHalf 2 5 1 Frame.idl true
      = extHalf.rtheta_to_xy 2 (5 - (1 + engR.V3IdlYAngle))
    ∧ rth_to_xy engR extHalf 2 5 1 Frame.idl true
      = rth_to_xy engR extHalfConv 2 5 1 Frame.idl true :=
  rth_to_xy_idl_direct engR extHalf extHalfConv 2 5 1 rfl

/-- C8: constructing with `image_mask = None` (and a recognized instrument)
is handled by the pupil-mask selection (which maps None to no pupil mask)
but then reaches the on/off-axis bar-array branch `image_mask[-1]`, where
construction fails on the None value; no usable engine is produced. -/
theorem init_none_mask_fails {n : ℕ} (X : InitExt n) (inst : String)
    (e : InstExt) (he : select_inst_ext inst = some e) (fov os : ℕ)
    (v xs ys : ℚ) :
    jwst_psf_init X inst none fov os v xs ys
      = Except.error InitError.typeErrorMaskNone
    ∧ choose_pupil_mask none = Except.ok none := by
  refine ⟨?_, rfl⟩
  unfold jwst_psf_init
  rw [he]
  rfl

/-- Witness for C8 with instrument NIRCAM and concrete construction-time
collaborators. -/
theorem init_none_mask_fails_witness :
    jwst_psf_init initExtC "NIRCAM" none 1 1 0 1 1
      = Except.error InitError.typeErrorMaskNone
    ∧ choose_pupil_mask (none : Option String) = Except.ok none :=
  init_none_mask_fails initExtC "NIRCAM" InstExt.nircam rfl 1 1 0 1 1

/-- C9: the centroiding routine performs exactly two fit-and-shift passes:
each pass crops the working template to the window, Gaussian-fits it,
forms the residual between the geometric window center and the fitted
center, re-shifts the working template by that residual, and the returned
offset is exactly the sum of the two per-pass residuals. -/
theorem calc_psf_off_shift_two_passes {τ : Type} (ops : ImOps τ)
    (psf_off : τ) (xysub : ℕ) :
    calc_psf_off_shift ops psf_off xysub =
      (let xc := arangeMean xysub
       let t0 := ops.pad_or_cut psf_off (xysub + 10)
       let f1 := ops.gauss_fit (ops.pad_or_cut t0 xysub)
       let r1 := (xc - f1.1, xc - f1.2)
       let t1 := ops.fourier_imshift t0 r1.1 r1.2
       let f2 := ops.gauss_fit (ops.pad_or_cut t1 xysub)
       let r2 := (xc - f2.1, xc - f2.2)
       (r1.1 + r2.1, r1.2 + r2.2)) := by
  simp only [calc_psf_off_shift, List.range_succ, List.range_zero,
    List.nil_append, List.cons_append, List.foldl_cons, List.foldl_nil,
    zero_add]

/-- C10: the query-time operations `gen_psf_idl`, `gen_psf` and
`rth_to_xy`, viewed as state transformers on the engine, leave every
engine attribute unchanged whether they return a result or abort: their
bodies contain no assignment to any `self` attribute. -/
theorem query_ops_preserve_state {n d : ℕ} (E : Engine n) (X : ExtOps n d)
    {N : ℕ} (coords : Fin N → ℚ × ℚ) (coord_frame : Frame)
    (loc : Fin N → ℚ × ℚ) (mode : LocMode) (PA_V3 r th : ℚ)
    (frame_out : Frame) (q ds ro av nor : Bool) :
    (gen_psf_idl_call E X coords coord_frame q ds ro).2 = E
    ∧ (gen_psf_call E X loc mode PA_V3 ro ds av nor q).2 = E
    ∧ (rth_to_xy_call E X r th PA_V3 frame_out av).2 = E :=
  ⟨rfl, rfl, rfl⟩
